import Mathlib

/-
  Verification development for the ALVR server control-plane excerpt:
  src/alvr/server/src/web_server.rs and src/alvr/server/src/logging_backend.rs.

  The Rust source is shallowly embedded as executable Lean definitions.
  External collaborators (serde, the OS, the driver runtime, the data
  manager) are passed in as parameters of an environment record, exactly
  where the source calls out to them.
-/

namespace Alvr

/-- Log levels of the log crate, as consumed by the logging backend. -/
inductive LogLevel where
  | error
  | warn
  | info
  | debug
  | trace
deriving DecidableEq

/-- Modelled from the spec: LogEntry severity is the enum with values
Error, Warning, Info, Debug (alvr_common, outside the source excerpt). -/
inductive LogSeverity where
  | error
  | warning
  | info
  | debug
deriving DecidableEq

/-- Modelled from the spec: the severity mapped from the log level
(alvr_common LogSeverity from_log_level, outside the source excerpt). -/
def from_log_level : LogLevel → LogSeverity
  | LogLevel.error => LogSeverity.error
  | LogLevel.warn => LogSeverity.warning
  | LogLevel.info => LogSeverity.info
  | LogLevel.debug => LogSeverity.debug
  | LogLevel.trace => LogSeverity.debug

/-- Modelled from the spec: the log level a LogEntry severity is re-emitted
at (alvr_common LogSeverity into_log_level, outside the source excerpt). -/
def into_log_level : LogSeverity → LogLevel
  | LogSeverity.error => LogLevel.error
  | LogSeverity.warning => LogLevel.warn
  | LogSeverity.info => LogLevel.info
  | LogSeverity.debug => LogLevel.debug

/-- LogEntry as in the spec data model: severity plus content. -/
structure LogEntry where
  severity : LogSeverity
  content : String
deriving DecidableEq

/-- Modelled from the spec: EventType is a closed tagged union
(Log, Session, AudioDevices, DriversList, and further variants); payloads
of the non-Log variants are opaque to the excerpt and kept abstract. -/
inductive EventType where
  | session (session : String)
  | audioDevices (list : List String)
  | driversList (list : List String)
  | log (entry : LogEntry)
deriving DecidableEq

/-- Event: a timestamp wrapper around EventType, as in alvr_events. -/
structure Event where
  timestamp : String
  event_type : EventType
deriving DecidableEq

/-- The opening brace character. -/
def openBrace : Char := Char.ofNat 123

/-- The closing brace character. -/
def closeBrace : Char := Char.ofNat 125

/-- Whether the first character of the string is the given character,
as the Rust starts_with with a char pattern. -/
def startsWithChar (s : String) (c : Char) : Bool :=
  match s.data with
  | [] => false
  | d :: _ => d = c

/-- Whether the last character of the string is the given character,
as the Rust ends_with with a char pattern. -/
def endsWithChar (s : String) (c : Char) : Bool :=
  match s.data.getLast? with
  | some d => d = c
  | none => false

/-- Outcome of classifying one rendered log message: either an EventType,
or a fatal unwrap failure (the process panics). -/
inductive ClassifyResult where
  | event (event_type : EventType)
  | fatal
deriving DecidableEq

/-- Embedding of the classification step of the format closure in
init_logging (logging_backend.rs lines 12 to 20): if the rendered message
starts with an opening brace and ends with a closing brace it is parsed as
a pre-built EventType, and the parse result is unwrapped (failure panics);
otherwise it is wrapped as EventType Log with the severity mapped from the
record level and content equal to the message. The serde parser is
external and passed as a parameter. -/
def classifyMessage (parse : String → Option EventType) (level : LogLevel)
    (message : String) : ClassifyResult :=
  if startsWithChar message openBrace && endsWithChar message closeBrace then
    match parse message with
    | some event_type => ClassifyResult.event event_type
    | none => ClassifyResult.fatal
  else
    ClassifyResult.event (EventType.log ⟨from_log_level level, message⟩)

/-- Observable effects of one run of the format closure in init_logging
(logging_backend.rs lines 11 to 30): the constructed event, the line
handed to the chained sinks (always attempted; delivery success of the
disk write is external and not observable by the closure), the line the
error-filtered crash chain receives, and the broadcast attempted and
accepted by the events bus. -/
structure LogPipelineResult where
  event : Event
  sinkAttempts : List String
  sinkDelivered : List String
  crashLines : List String
  busAttempts : List Event
  busPublished : List Event
deriving DecidableEq

/-- Embedding of one full run of the format closure in init_logging
(logging_backend.rs lines 11 to 30): classify the message, stamp it with
the current timestamp, serialize it, hand the line to the chained sinks
via out finish, then, if the events bus exists, try_broadcast the event
and discard the broadcast result. A none result is the unwrap panic on a
malformed structured message. The serializer, clock, bus presence, bus
space and sink write outcome are external parameters; none of the bus
parameters influences the sink fields and the sink outcome does not
influence the bus fields, mirroring the straight-line source. -/
def processLogRecord (parse : String → Option EventType)
    (serialize : Event → String) (now : String) (level : LogLevel)
    (message : String) (busPresent busHasSpace sinkOk : Bool) :
    Option LogPipelineResult :=
  match classifyMessage parse level message with
  | ClassifyResult.fatal => none
  | ClassifyResult.event et =>
    let ev : Event := ⟨now, et⟩
    let line := serialize ev
    some
      { event := ev
        sinkAttempts := [line]
        sinkDelivered := if sinkOk then [line] else []
        crashLines := if level = LogLevel.error then [line] else []
        busAttempts := if busPresent then [ev] else []
        busPublished := if busPresent && busHasSpace then [ev] else [] }

/-- Modelled from the spec: the client connection-state machine of
alvr_session (outside the source excerpt), with the states named in the
spec (Connected, Disconnected, Disconnecting with a should_be_removed
flag) and the further states owned by the connection collaborator. -/
inductive ConnectionState where
  | disconnected
  | connecting
  | connected
  | streaming
  | disconnecting (should_be_removed : Bool)
deriving DecidableEq

/-- Modelled from the spec: the client-list actions of alvr_packets
(outside the source excerpt) that the dispatcher arm distinguishes or
constructs: RemoveEntry, SetConnectionState, and the remaining mutating
actions represented by AddIfMissing and SetDisplayName. -/
inductive ClientListAction where
  | addIfMissing
  | setDisplayName (display_name : String)
  | setConnectionState (state : ConnectionState)
  | removeEntry
deriving DecidableEq

/-- The client registry: hostname keyed association list of entries. -/
abbrev ClientRegistry := List (String × ConnectionState)

/-- Lookup of the entry with the given hostname in the registry. -/
def lookupState : ClientRegistry → String → Option ConnectionState
  | [], _ => none
  | e :: rest, hostname =>
    if e.1 = hostname then some e.2 else lookupState rest hostname

/-- Modelled from the spec: the registry mutation update_client_list
performed by the external server data manager (outside the source
excerpt). RemoveEntry deletes the entry with the hostname,
SetConnectionState rewrites the state of an existing entry, AddIfMissing
inserts a Disconnected entry when the hostname is absent, and
SetDisplayName leaves the connection registry shape unchanged. -/
def update_client_list (registry : ClientRegistry) (hostname : String) :
    ClientListAction → ClientRegistry
  | ClientListAction.removeEntry =>
    registry.filter (fun e => decide (e.1 ≠ hostname))
  | ClientListAction.setConnectionState s =>
    registry.map (fun e => if e.1 = hostname then (e.1, s) else e)
  | ClientListAction.addIfMissing =>
    if (lookupState registry hostname).isSome then registry
    else registry ++ [(hostname, ConnectionState.disconnected)]
  | ClientListAction.setDisplayName _ => registry

/-- Embedding of the UpdateClientList dispatcher arm body
(web_server.rs lines 60 to 79): for RemoveEntry, an existing entry that is
not Disconnected is moved to Disconnecting with should_be_removed set,
an existing Disconnected entry is removed, and an absent hostname leaves
the registry untouched; every other action is forwarded to
update_client_list unchanged. -/
def clientListAfterRequest (registry : ClientRegistry) (hostname : String)
    (action : ClientListAction) : ClientRegistry :=
  match action with
  | ClientListAction.removeEntry =>
    match lookupState registry hostname with
    | some st =>
      if st ≠ ConnectionState.disconnected then
        update_client_list registry hostname
          (ClientListAction.setConnectionState
            (ConnectionState.disconnecting true))
      else
        update_client_list registry hostname ClientListAction.removeEntry
    | none => registry
  | a => update_client_list registry hostname a

/-- Modelled from the spec: the firewall action payload carried by the
FirewallRules request (outside the source excerpt); opaque to the
dispatcher, which forwards it to the OS collaborator. -/
inductive FirewallRulesAction where
  | add
  | remove
deriving DecidableEq

/-- Modelled from the spec: button values are binary or scalar
(alvr_packets ButtonValue, outside the source excerpt); the scalar
payload is opaque to the dispatcher and kept abstract. -/
inductive ButtonValue where
  | binary (value : Bool)
  | scalar (value : Int)
deriving DecidableEq

/-- Modelled from the spec: one entry of the set-buttons body, a path
with a value (alvr_events ButtonEvent, outside the source excerpt). -/
structure ButtonEvent where
  path : String
  value : ButtonValue
deriving DecidableEq

/-- Modelled from the spec: the closed set of administrative requests of
alvr_packets ServerRequest (outside the source excerpt), with payloads
the dispatcher treats as opaque kept abstract. -/
inductive ServerRequest where
  | log (severity : LogSeverity) (content : String)
  | getSession
  | updateSession (session : String)
  | setValues (descs : String)
  | updateClientList (hostname : String) (action : ClientListAction)
  | getAudioDevices
  | captureFrame
  | insertIdr
  | startRecording
  | stopRecording
  | firewallRules (action : FirewallRulesAction)
  | registerAlvrDriver
  | unregisterDriver (path : String)
  | getDriverList
  | restartSteamvr
  | shutdownSteamvr
deriving DecidableEq

/-- The shared state and the observable side effects the request handler
can touch: the client registry, the session payload, the recording flag,
the disconnect notifier and a count of notices sent through it, the
events emitted via send_event, the log calls issued, the collaborator
invocation counters, the spawned background tasks, and the buttons
pressed. -/
structure World where
  client_list : ClientRegistry
  session : String
  setValuesCalls : List String
  recording : Bool
  notifierInstalled : Bool
  disconnectNotices : Nat
  eventsSent : List EventType
  logCalls : List (LogLevel × String)
  captureFrames : Nat
  idrRequests : Nat
  driverRegCalls : List (String × Bool)
  restartsSpawned : Nat
  shutdownsSpawned : Nat
  eventLoopsSpawned : Nat
  mirrorLoopsSpawned : Nat
  buttonsPressed : List (Nat × ButtonValue)
deriving DecidableEq

/-- The external collaborators the handler calls: the serde parsers, the
path hash, the audio device and driver list queries, the firewall and
driver-registration outcomes, the websocket upgrade outcome, the static
file system, and the driver root path. A none query result is an Err of
the collaborator. The driver registration outcome is recorded here even
though the dispatcher discards it with ok. -/
structure Env where
  parseServerRequest : String → Option ServerRequest
  parseButtonEvents : String → Option (List ButtonEvent)
  hashString : String → Nat
  audio_devices : Option (List String)
  registered_drivers : Option (List String)
  firewallOk : Bool
  driverRegOk : Bool
  wsOk : Bool
  fileOpens : String → Bool
  openvr_driver_root_dir : String

/-- Embedding of the dashboard-request dispatch match
(web_server.rs lines 44 to 132): one arm per ServerRequest variant,
mutating the world exactly as the source does. The UpdateClientList arm
updates the registry per clientListAfterRequest and then, if the
disconnect notifier is installed, sends one disconnect request through
it regardless of the action, discarding the send result. -/
def dispatchServerRequest (env : Env) (w : World) : ServerRequest → World
  | ServerRequest.log severity content =>
    { w with logCalls := w.logCalls ++ [(into_log_level severity, content)] }
  | ServerRequest.getSession =>
    { w with eventsSent := w.eventsSent ++ [EventType.session w.session] }
  | ServerRequest.updateSession session => { w with session := session }
  | ServerRequest.setValues descs =>
    { w with setValuesCalls := w.setValuesCalls ++ [descs] }
  | ServerRequest.updateClientList hostname action =>
    let w1 :=
      { w with client_list := clientListAfterRequest w.client_list hostname action }
    if w1.notifierInstalled then
      { w1 with disconnectNotices := w1.disconnectNotices + 1 }
    else w1
  | ServerRequest.getAudioDevices =>
    match env.audio_devices with
    | some list => { w with eventsSent := w.eventsSent ++ [EventType.audioDevices list] }
    | none => w
  | ServerRequest.captureFrame => { w with captureFrames := w.captureFrames + 1 }
  | ServerRequest.insertIdr => { w with idrRequests := w.idrRequests + 1 }
  | ServerRequest.startRecording => { w with recording := true }
  | ServerRequest.stopRecording => { w with recording := false }
  | ServerRequest.firewallRules _ =>
    if env.firewallOk then
      { w with logCalls := w.logCalls ++ [(LogLevel.info, "Setting firewall rules succeeded!")] }
    else
      { w with logCalls := w.logCalls ++ [(LogLevel.error, "Setting firewall rules failed!")] }
  | ServerRequest.registerAlvrDriver =>
    let w1 :=
      { w with driverRegCalls := w.driverRegCalls ++ [(env.openvr_driver_root_dir, true)] }
    match env.registered_drivers with
    | some list => { w1 with eventsSent := w1.eventsSent ++ [EventType.driversList list] }
    | none => w1
  | ServerRequest.unregisterDriver path =>
    let w1 := { w with driverRegCalls := w.driverRegCalls ++ [(path, false)] }
    match env.registered_drivers with
    | some list => { w1 with eventsSent := w1.eventsSent ++ [EventType.driversList list] }
    | none => w1
  | ServerRequest.getDriverList =>
    match env.registered_drivers with
    | some list => { w with eventsSent := w.eventsSent ++ [EventType.driversList list] }
    | none => w
  | ServerRequest.restartSteamvr => { w with restartsSpawned := w.restartsSpawned + 1 }
  | ServerRequest.shutdownSteamvr => { w with shutdownsSpawned := w.shutdownsSpawned + 1 }

/-- An inbound HTTP request: the url and the optional body data. -/
structure Request where
  url : String
  data : Option String

/-- The responses the handler builds: rouille empty responses with a
status code, the 503 text response, an accepted websocket upgrade, and a
static file response with a content type. -/
inductive HttpResponse where
  | empty (code : Nat)
  | text (code : Nat) (body : String)
  | websocketUpgrade
  | file (contentType : String)
deriving DecidableEq

/-- Embedding of the static-route content type choice
(web_server.rs lines 236 to 244). -/
def contentTypeFor (uri : String) : String :=
  if uri.endsWith (".html") then "text/html"
  else if uri.endsWith (".js") then "text/javascript"
  else if uri.endsWith (".wasm") then "application/wasm"
  else "text/plain"

/-- Embedding of the request handler closure passed to the rouille server
(web_server.rs lines 33 to 253): the shutdown guard first, then the route
match. Body deserialization failures map to 400 via try_or_400, the
websocket routes spawn their streaming thread and answer with the upgrade
response, ping answers 204, and every other path is served from the
static asset root with 404 on a failed file open. -/
def handleRequest (env : Env) (shuttingDown : Bool) (req : Request)
    (w : World) : HttpResponse × World :=
  if shuttingDown then
    (HttpResponse.text 503 ("Server is shutting down"), w)
  else if req.url = "/api/dashboard-request" then
    match req.data with
    | none => (HttpResponse.empty 400, w)
    | some raw =>
      match env.parseServerRequest raw with
      | none => (HttpResponse.empty 400, w)
      | some r => (HttpResponse.empty 204, dispatchServerRequest env w r)
  else if req.url = "/api/events" then
    let w1 := { w with logCalls := w.logCalls ++ [(LogLevel.error, "subscribing to events!")] }
    if env.wsOk then
      (HttpResponse.websocketUpgrade,
        { w1 with eventLoopsSpawned := w1.eventLoopsSpawned + 1 })
    else (HttpResponse.empty 400, w1)
  else if req.url = "/api/video-mirror" then
    if env.wsOk then
      (HttpResponse.websocketUpgrade,
        { w with mirrorLoopsSpawned := w.mirrorLoopsSpawned + 1 })
    else (HttpResponse.empty 400, w)
  else if req.url = "/api/set-buttons" then
    match req.data with
    | none => (HttpResponse.empty 400, w)
    | some raw =>
      match env.parseButtonEvents raw with
      | none => (HttpResponse.empty 400, w)
      | some buttons =>
        (HttpResponse.empty 204,
          { w with buttonsPressed :=
              w.buttonsPressed ++
                buttons.map (fun b => (env.hashString b.path, b.value)) })
  else if req.url = "/api/ping" then (HttpResponse.empty 204, w)
  else
    let uri := if req.url = "/" then "/index.html" else req.url
    if env.fileOpens uri then (HttpResponse.file (contentTypeFor uri), w)
    else (HttpResponse.empty 404, w)

/-- Outcome of a streaming loop run: exited (the loop head observed the
shutdown flag, or a send failed and the loop broke) with the list of
sends issued, or blocked (the loop is parked inside the blocking pull of
the next bus item with no further delivery ever arriving) with the list
of sends issued before parking. -/
inductive LoopOutcome where
  | exited (sent : List String)
  | blocked (sent : List String)
deriving DecidableEq

/-- Embedding of the websocket streaming loops of the events and
video-mirror routes (web_server.rs lines 150 to 159 and 190 to 197):
while the shutdown flag read at the loop head is clear, block on the next
bus item, send it, and break on a send failure. The flag is a function of
the head-check index so the schedule of the one-way flag relative to the
loop is explicit; deliveries is the finite list of items the bus will
ever yield to this receiver, so running out of deliveries with the flag
still clear at the head leaves the loop parked in the blocking pull. -/
def streamLoopGo (flag : Nat → Bool) (sendOk : String → Bool) :
    List String → Nat → List String → LoopOutcome
  | [], k, sent =>
    if flag k then LoopOutcome.exited sent.reverse
    else LoopOutcome.blocked sent.reverse
  | d :: rest, k, sent =>
    if flag k then LoopOutcome.exited sent.reverse
    else if sendOk d then streamLoopGo flag sendOk rest (k + 1) (d :: sent)
    else LoopOutcome.exited (d :: sent).reverse

/-- The streaming loop started at head-check index zero with nothing sent. -/
def streamLoop (flag : Nat → Bool) (sendOk : String → Bool)
    (deliveries : List String) : LoopOutcome :=
  streamLoopGo flag sendOk deliveries 0 []

/-- The shutdown-responsiveness property a streaming loop run would have
to satisfy for the claim: whenever the shutdown flag is set at some
head-check index, the loop run exits rather than staying parked in the
blocking pull. -/
def shutdownResponsive (flag : Nat → Bool) (sendOk : String → Bool)
    (deliveries : List String) : Prop :=
  (∃ k, flag k = true) →
    ∃ sent, streamLoop flag sendOk deliveries = LoopOutcome.exited sent

/-- A shutdown flag that is set from head-check index one onward: the
shutdown signal arrives right after the loop has passed its first head
check. -/
def lateFlag : Nat → Bool := fun k => decide (1 ≤ k)

/-- The video-mirror bus slot VIDEO_MIRROR_BUS: an optional current bus,
identified by a creation generation so distinct bus instances are
distinguishable, plus the next fresh generation. -/
structure MirrorBusState where
  current : Option Nat
  nextGen : Nat
deriving DecidableEq

/-- The initial mirror bus slot: no bus exists before any subscription. -/
def mirrorBusInit : MirrorBusState := ⟨none, 0⟩

/-- Embedding of the bus acquisition of the video-mirror subscription
thread (web_server.rs line 175): bus_lock insert of a newly constructed
Bus, i.e. the slot is unconditionally overwritten with a fresh bus (any
previously stored bus is dropped) and the fresh bus is returned to the
subscriber. -/
def mirrorBusSubscribe (s : MirrorBusState) : MirrorBusState × Nat :=
  (⟨some s.nextGen, s.nextGen + 1⟩, s.nextGen)

/-- The mirror bus slot after n successive subscriptions from startup. -/
def subscribeN : Nat → MirrorBusState
  | 0 => mirrorBusInit
  | n + 1 => (mirrorBusSubscribe (subscribeN n)).1

/-- The primitive steps the video-mirror subscription thread performs on
the current bus: replace the slot with a fresh bus, add the receiver,
try_broadcast a buffer, and request a keyframe from the collaborator. -/
inductive MirrorAction where
  | insertNewBus
  | addRx
  | tryBroadcast (buffer : List Nat)
  | requestIDR
deriving DecidableEq

/-- State of one mirror session run: the items broadcast on the current
bus, the read start position of the subscriber receiver (subscribers see
only items broadcast after their add_rx), and the number of keyframe
requests issued. -/
structure MirrorRun where
  busItems : List (List Nat)
  rxStart : Option Nat
  idrCount : Nat
deriving DecidableEq

/-- Effect of one mirror action on the session state. -/
def stepMirror (w : MirrorRun) : MirrorAction → MirrorRun
  | MirrorAction.insertNewBus => { w with busItems := [] }
  | MirrorAction.addRx => { w with rxStart := some w.busItems.length }
  | MirrorAction.tryBroadcast b => { w with busItems := w.busItems ++ [b] }
  | MirrorAction.requestIDR => { w with idrCount := w.idrCount + 1 }

/-- Run a list of mirror actions in order. -/
def runMirror (acts : List MirrorAction) (w : MirrorRun) : MirrorRun :=
  acts.foldl stepMirror w

/-- Embedding of the setup sequence of the video-mirror subscription
thread (web_server.rs lines 172 to 186), in source order: insert a fresh
bus into the slot, add the subscriber receiver, try_broadcast the stored
decoder config buffer if one is known, then call RequestIDR on the
collaborator. -/
def mirrorSubscribeActions (config : Option (List Nat)) : List MirrorAction :=
  [MirrorAction.insertNewBus, MirrorAction.addRx] ++
    (match config with
     | some c => [MirrorAction.tryBroadcast c]
     | none => []) ++ [MirrorAction.requestIDR]

/-- The items the subscriber receiver of a session run observes, in bus
order: everything broadcast on the current bus from its read start. -/
def deliveredTo (w : MirrorRun) : List (List Nat) :=
  match w.rxStart with
  | some i => w.busItems.drop i
  | none => []

/-- A hostname used by the concrete witness worlds. -/
def h1name : String := "h1"

/-- A neutral concrete world: empty registry, no notifier, no effects. -/
def baseWorld : World :=
  { client_list := []
    session := ""
    setValuesCalls := []
    recording := false
    notifierInstalled := false
    disconnectNotices := 0
    eventsSent := []
    logCalls := []
    captureFrames := 0
    idrRequests := 0
    driverRegCalls := []
    restartsSpawned := 0
    shutdownsSpawned := 0
    eventLoopsSpawned := 0
    mirrorLoopsSpawned := 0
    buttonsPressed := [] }

/-- A neutral concrete environment. -/
def envBase : Env :=
  { parseServerRequest := fun _ => none
    parseButtonEvents := fun _ => none
    hashString := fun _ => 0
    audio_devices := none
    registered_drivers := none
    firewallOk := true
    driverRegOk := true
    wsOk := true
    fileOpens := fun _ => false
    openvr_driver_root_dir := "root" }

/-- An environment whose dashboard body parses to RegisterAlvrDriver and
whose driver-registration collaborator fails; the driver list query
succeeds so the request is structurally fine. -/
def envDriverFail : Env :=
  { envBase with
    parseServerRequest := fun _ => some ServerRequest.registerAlvrDriver
    registered_drivers := some []
    driverRegOk := false }

/-- An environment whose dashboard body parses to FirewallRules and whose
firewall collaborator fails. -/
def envFwFail : Env :=
  { envBase with
    parseServerRequest :=
      fun _ => some (ServerRequest.firewallRules FirewallRulesAction.add)
    firewallOk := false }

/-- A concrete dashboard request with a body. -/
def reqDashboard : Request := ⟨"/api/dashboard-request", some ("b")⟩

/-- The base world with the disconnect notifier installed. -/
def wNotif : World := { baseWorld with notifierInstalled := true }

/-- A world holding one connected client h1, with the notifier installed. -/
def wConn : World :=
  { baseWorld with
    client_list := [(h1name, ConnectionState.connected)]
    notifierInstalled := true }

/-- A world holding one disconnected client h1. -/
def wDisc : World :=
  { baseWorld with client_list := [(h1name, ConnectionState.disconnected)] }

/-- A concrete structured-message parser for the logging witnesses: it
recognizes one fixed JSON-shaped message as a Session event. -/
def wParse : String → Option EventType :=
  fun s => if s = "\x7bS\x7d" then some (EventType.session ("s")) else none

/-- The property claim C9 asserts of a dashboard request whose
collaborator call fails: the request completes with 204 and the failure
shows up as a newly logged error record. -/
def requestCompletedWithFailureLogged (env : Env) (req : Request)
    (w : World) : Prop :=
  (handleRequest env false req w).1 = HttpResponse.empty 204 ∧
    ∃ m, (LogLevel.error, m) ∈ (handleRequest env false req w).2.logCalls ∧
      (LogLevel.error, m) ∉ w.logCalls

-- Helper lemmas (shared; none of them is a claim theorem).

theorem lookupState_filter_self (reg : ClientRegistry) (hn : String) :
    lookupState (reg.filter (fun e => !decide (e.1 = hn))) hn = none := by
  induction reg with
  | nil => rfl
  | cons e rest ih =>
    by_cases he : e.1 = hn
    · simpa [List.filter, he] using ih
    · simpa [List.filter, he, lookupState] using ih

theorem lookupState_map_set (reg : ClientRegistry) (hn : String)
    (s : ConnectionState) :
    lookupState (reg.map (fun e => if e.1 = hn then (e.1, s) else e)) hn
      = (lookupState reg hn).map (fun _ => s) := by
  induction reg with
  | nil => rfl
  | cons e rest ih =>
    by_cases he : e.1 = hn <;> simp [lookupState, he, ih]

theorem dispatch_updateClientList_client_list (env : Env) (w : World)
    (hn : String) (a : ClientListAction) :
    (dispatchServerRequest env w (ServerRequest.updateClientList hn a)).client_list
      = clientListAfterRequest w.client_list hn a := by
  cases h : w.notifierInstalled <;> simp [dispatchServerRequest, h]

theorem dispatch_updateClientList_notices (env : Env) (w : World)
    (hn : String) (a : ClientListAction) (h : w.notifierInstalled = true) :
    (dispatchServerRequest env w (ServerRequest.updateClientList hn a)).disconnectNotices
      = w.disconnectNotices + 1 := by
  simp [dispatchServerRequest, h]

-- Claim theorems.

/-- Claim C2: dispatching UpdateClientList with action RemoveEntry
removes a Disconnected entry synchronously; an entry in any other state
is not removed but moved to Disconnecting with should_be_removed set,
and (with the notifier installed) one disconnect notice is sent while
the entry remains present; an absent hostname leaves the client registry
unchanged (idempotent removal). The registry mutation update_client_list
lives in the external data manager and is modelled from the spec. -/
theorem updateClientList_removeEntry_spec (env : Env) (w : World)
    (hn : String) :
    (lookupState w.client_list hn = some ConnectionState.disconnected →
      lookupState
        (dispatchServerRequest env w
          (ServerRequest.updateClientList hn ClientListAction.removeEntry)).client_list
        hn = none) ∧
    (∀ st, lookupState w.client_list hn = some st →
      st ≠ ConnectionState.disconnected →
      lookupState
        (dispatchServerRequest env w
          (ServerRequest.updateClientList hn ClientListAction.removeEntry)).client_list
        hn = some (ConnectionState.disconnecting true) ∧
      (w.notifierInstalled = true →
        (dispatchServerRequest env w
          (ServerRequest.updateClientList hn ClientListAction.removeEntry)).disconnectNotices
          = w.disconnectNotices + 1)) ∧
    (lookupState w.client_list hn = none →
      (dispatchServerRequest env w
        (ServerRequest.updateClientList hn ClientListAction.removeEntry)).client_list
        = w.client_list) := by
  refine ⟨?_, ?_, ?_⟩
  · intro hlk
    rw [dispatch_updateClientList_client_list]
    simp [clientListAfterRequest, hlk, update_client_list,
      lookupState_filter_self]
  · intro st hlk hne
    refine ⟨?_, ?_⟩
    · rw [dispatch_updateClientList_client_list]
      simp [clientListAfterRequest, hlk, hne, update_client_list,
        lookupState_map_set]
    · intro hnot
      exact dispatch_updateClientList_notices env w hn
        ClientListAction.removeEntry hnot
  · intro hlk
    rw [dispatch_updateClientList_client_list]
    simp [clientListAfterRequest, hlk]

/-- Claim C2 witness: on a world with one Connected client h1 and the
notifier installed, RemoveEntry leaves h1 present in state Disconnecting
with should_be_removed set and sends one disconnect notice; on a world
with h1 Disconnected, RemoveEntry deletes it. -/
theorem updateClientList_removeEntry_spec_witness :
    lookupState
      (dispatchServerRequest envBase wConn
        (ServerRequest.updateClientList h1name ClientListAction.removeEntry)).client_list
      h1name = some (ConnectionState.disconnecting true) ∧
    (dispatchServerRequest envBase wConn
      (ServerRequest.updateClientList h1name ClientListAction.removeEntry)).disconnectNotices
      = 1 ∧
    lookupState
      (dispatchServerRequest envBase wDisc
        (ServerRequest.updateClientList h1name ClientListAction.removeEntry)).client_list
      h1name = none := by
  refine ⟨?_, ?_, ?_⟩
  · exact ((updateClientList_removeEntry_spec envBase wConn h1name).2.1
      ConnectionState.connected (by decide) (by decide)).1
  · exact ((updateClientList_removeEntry_spec envBase wConn h1name).2.1
      ConnectionState.connected (by decide) (by decide)).2 rfl
  · exact (updateClientList_removeEntry_spec envBase wDisc h1name).1 (by decide)

/-- Claim C10: dispatching UpdateClientList with any action, any
connection state and any hostname (present or absent) sends exactly one
disconnect notice whenever the disconnect notifier is installed; the
notification is not restricted to the graceful-removal case. -/
theorem updateClientList_always_notifies (env : Env) (w : World)
    (hn : String) (a : ClientListAction)
    (h : w.notifierInstalled = true) :
    (dispatchServerRequest env w (ServerRequest.updateClientList hn a)).disconnectNotices
      = w.disconnectNotices + 1 := by
  simp [dispatchServerRequest, h]

/-- Claim C10 witness: an AddIfMissing action on an absent hostname, far
from any removal, still sends one disconnect notice. -/
theorem updateClientList_always_notifies_witness :
    (dispatchServerRequest envBase wNotif
      (ServerRequest.updateClientList h1name ClientListAction.addIfMissing)).disconnectNotices
      = 1 :=
  updateClientList_always_notifies envBase wNotif h1name
    ClientListAction.addIfMissing rfl

/-- Claim C3: a rendered log message that begins with an opening brace
and ends with a closing brace is parsed as a pre-built EventType and a
parse failure on it is fatal (the classification yields the panic
outcome, never a silent rewrap); any other message is wrapped as an
EventType Log with the severity mapped from the log level and the
content equal to the message. -/
theorem log_classification_spec (parse : String → Option EventType)
    (level : LogLevel) (message : String) :
    (startsWithChar message openBrace = true →
      endsWithChar message closeBrace = true →
      (∀ et, parse message = some et →
        classifyMessage parse level message = ClassifyResult.event et) ∧
      (parse message = none →
        classifyMessage parse level message = ClassifyResult.fatal)) ∧
    ((startsWithChar message openBrace && endsWithChar message closeBrace) = false →
      classifyMessage parse level message =
        ClassifyResult.event
          (EventType.log ⟨from_log_level level, message⟩)) := by
  refine ⟨?_, ?_⟩
  · intro h1 h2
    refine ⟨?_, ?_⟩
    · intro et het
      simp [classifyMessage, h1, h2, het]
    · intro hnone
      simp [classifyMessage, h1, h2, hnone]
  · intro h
    simp [classifyMessage, h]

/-- Claim C3 witness: the fixed JSON-shaped message parses to the Session
variant rather than a Log wrap, a JSON-shaped message the parser rejects
is fatal, and the plain message hello is wrapped as an Info Log entry. -/
theorem log_classification_spec_witness :
    classifyMessage wParse LogLevel.info ("\x7bS\x7d")
      = ClassifyResult.event (EventType.session ("s")) ∧
    classifyMessage wParse LogLevel.info ("\x7bT\x7d")
      = ClassifyResult.fatal ∧
    classifyMessage wParse LogLevel.info ("hello")
      = ClassifyResult.event
          (EventType.log ⟨LogSeverity.info, "hello"⟩) := by
  refine ⟨?_, ?_, ?_⟩
  · exact ((log_classification_spec wParse LogLevel.info ("\x7bS\x7d")).1
      (by decide) (by decide)).1 (EventType.session ("s")) (by decide)
  · exact ((log_classification_spec wParse LogLevel.info ("\x7bT\x7d")).1
      (by decide) (by decide)).2 (by decide)
  · exact (log_classification_spec wParse LogLevel.info ("hello")).2
      (by decide)

/-- Claim C7: a log call with the plain message hello at Info level
produces exactly one event, whose payload is the Log entry with Info
severity and content hello, published once on the events bus (present
and with space) and written as exactly one matching serialized line to
the persisted sink, with no crash-log line. -/
theorem plain_info_log_single_event_and_line
    (parse : String → Option EventType) (serialize : Event → String)
    (now : String) :
    processLogRecord parse serialize now LogLevel.info ("hello") true true true
      = some
          { event := ⟨now, EventType.log ⟨LogSeverity.info, "hello"⟩⟩
            sinkAttempts :=
              [serialize ⟨now, EventType.log ⟨LogSeverity.info, "hello"⟩⟩]
            sinkDelivered :=
              [serialize ⟨now, EventType.log ⟨LogSeverity.info, "hello"⟩⟩]
            crashLines := []
            busAttempts :=
              [⟨now, EventType.log ⟨LogSeverity.info, "hello"⟩⟩]
            busPublished :=
              [⟨now, EventType.log ⟨LogSeverity.info, "hello"⟩⟩] } := by
  have hshape :
      (startsWithChar ("hello") openBrace && endsWithChar ("hello") closeBrace)
        = false := by decide
  simp +decide [processLogRecord, classifyMessage, hshape, from_log_level]

/-- Claim C8: for every log emission, the sink write and the bus
broadcast are independent: the line handed to the sink chain (and its
delivery) is the same whatever the bus presence and space, and the
broadcast attempted and accepted on the bus is the same whatever the
sink write outcome. -/
theorem sink_and_broadcast_independent
    (parse : String → Option EventType) (serialize : Event → String)
    (now : String) (level : LogLevel) (message : String)
    (bp bs so bp2 bs2 so2 : Bool) :
    ((processLogRecord parse serialize now level message bp bs so).map
        LogPipelineResult.sinkAttempts
      = (processLogRecord parse serialize now level message bp2 bs2 so).map
        LogPipelineResult.sinkAttempts) ∧
    ((processLogRecord parse serialize now level message bp bs so).map
        LogPipelineResult.sinkDelivered
      = (processLogRecord parse serialize now level message bp2 bs2 so).map
        LogPipelineResult.sinkDelivered) ∧
    ((processLogRecord parse serialize now level message bp bs so).map
        LogPipelineResult.busAttempts
      = (processLogRecord parse serialize now level message bp bs so2).map
        LogPipelineResult.busAttempts) ∧
    ((processLogRecord parse serialize now level message bp bs so).map
        LogPipelineResult.busPublished
      = (processLogRecord parse serialize now level message bp bs so2).map
        LogPipelineResult.busPublished) := by
  cases h : classifyMessage parse level message <;>
    simp [processLogRecord, h]

/-- Claim C6: while the shutdown flag is set, every inbound request, on
every route, receives the 503 text response and the world is returned
unchanged: no state change, no event emission, no log call. -/
theorem shutdown_returns_503_and_no_effects (env : Env) (req : Request)
    (w : World) :
    handleRequest env true req w
      = (HttpResponse.text 503 ("Server is shutting down"), w) := by
  simp [handleRequest]

-- Helper lemma for the dashboard route (shared; not a claim theorem).

theorem handleRequest_dashboard (env : Env) (w : World) (raw : String)
    (r : ServerRequest) (hp : env.parseServerRequest raw = some r) :
    handleRequest env false ⟨"/api/dashboard-request", some raw⟩ w
      = (HttpResponse.empty 204, dispatchServerRequest env w r) := by
  simp [handleRequest, hp]

/-- Claim C9 counterexample: with the driver-registration collaborator
failing, a structurally valid RegisterAlvrDriver dashboard request
completes with 204 but no error record is logged at all (the source
discards the registration result with ok), refuting that every failing
collaborator call of the driver-registration kind is logged as an error
event. -/
theorem collaborator_failure_logging_counterexample :
    envDriverFail.driverRegOk = false ∧
    ¬ requestCompletedWithFailureLogged envDriverFail reqDashboard baseWorld := by
  refine ⟨rfl, ?_⟩
  intro h
  rcases h with ⟨-, m, hm, -⟩
  have hcalls :
      (handleRequest envDriverFail false reqDashboard baseWorld).2.logCalls
        = [] := by decide
  rw [hcalls] at hm
  simp at hm

/-- Claim C9 as amended: for a dashboard request whose body deserializes
successfully, a failing firewall-rules collaborator call is logged as an
error and the request still completes with 204; a failing driver
registration or unregistration is silently discarded (no error record is
appended) while the request also completes with 204; in no case is the
failure propagated as an error response. -/
theorem collaborator_failure_responses (env : Env) (w : World)
    (raw : String) :
    (∀ a, env.parseServerRequest raw = some (ServerRequest.firewallRules a) →
      env.firewallOk = false →
      handleRequest env false ⟨"/api/dashboard-request", some raw⟩ w
        = (HttpResponse.empty 204,
           { w with logCalls :=
               w.logCalls ++ [(LogLevel.error, "Setting firewall rules failed!")] })) ∧
    (env.parseServerRequest raw = some ServerRequest.registerAlvrDriver →
      (handleRequest env false ⟨"/api/dashboard-request", some raw⟩ w).1
        = HttpResponse.empty 204 ∧
      (handleRequest env false ⟨"/api/dashboard-request", some raw⟩ w).2.logCalls
        = w.logCalls) ∧
    (∀ p, env.parseServerRequest raw = some (ServerRequest.unregisterDriver p) →
      (handleRequest env false ⟨"/api/dashboard-request", some raw⟩ w).1
        = HttpResponse.empty 204 ∧
      (handleRequest env false ⟨"/api/dashboard-request", some raw⟩ w).2.logCalls
        = w.logCalls) := by
  refine ⟨?_, ?_, ?_⟩
  · intro a hp hfw
    rw [handleRequest_dashboard env w raw _ hp]
    simp [dispatchServerRequest, hfw]
  · intro hp
    rw [handleRequest_dashboard env w raw _ hp]
    cases hdr : env.registered_drivers <;>
      simp [dispatchServerRequest, hdr]
  · intro p hp
    rw [handleRequest_dashboard env w raw _ hp]
    cases hdr : env.registered_drivers <;>
      simp [dispatchServerRequest, hdr]

/-- Claim C9 amended witness: a failing firewall request yields 204 plus
one error log record, and a failing driver registration yields 204 with
no log record appended. -/
theorem collaborator_failure_responses_witness :
    handleRequest envFwFail false reqDashboard baseWorld
      = (HttpResponse.empty 204,
         { baseWorld with
             logCalls := [(LogLevel.error, "Setting firewall rules failed!")] }) ∧
    (handleRequest envDriverFail false reqDashboard baseWorld).1
      = HttpResponse.empty 204 ∧
    (handleRequest envDriverFail false reqDashboard baseWorld).2.logCalls
      = [] := by
  refine ⟨?_, ?_, ?_⟩
  · exact (collaborator_failure_responses envFwFail baseWorld ("b")).1
      FirewallRulesAction.add rfl rfl
  · exact ((collaborator_failure_responses envDriverFail baseWorld ("b")).2.1
      rfl).1
  · exact ((collaborator_failure_responses envDriverFail baseWorld ("b")).2.1
      rfl).2

-- Helper lemma for the streaming loop (shared; not a claim theorem).

theorem streamLoopGo_exits (flag : Nat → Bool) (sendOk : String → Bool) :
    ∀ (n : Nat) (ds : List String) (k : Nat) (sent : List String),
      flag (k + n) = true →
      (∀ m, m < n → flag (k + m) = false) →
      n ≤ ds.length →
      (∀ d ∈ ds.take n, sendOk d = true) →
      streamLoopGo flag sendOk ds k sent
        = LoopOutcome.exited (sent.reverse ++ ds.take n) := by
  intro n
  induction n with
  | zero =>
    intro ds k sent hset _ _ _
    have hk : flag k = true := by simpa using hset
    cases ds with
    | nil => simp [streamLoopGo, hk]
    | cons d rest => simp [streamLoopGo, hk]
  | succ n ih =>
    intro ds k sent hset hclear hlen hsend
    have hk : flag k = false := by
      have := hclear 0 (Nat.succ_pos n)
      simpa using this
    cases ds with
    | nil => simp at hlen
    | cons d rest =>
      have hd : sendOk d = true := hsend d (by simp)
      have hset2 : flag (k + 1 + n) = true := by
        have : k + 1 + n = k + (n + 1) := by omega
        rw [this]
        exact hset
      have hclear2 : ∀ m, m < n → flag (k + 1 + m) = false := by
        intro m hm
        have : k + 1 + m = k + (m + 1) := by omega
        rw [this]
        exact hclear (m + 1) (by omega)
      have hlen2 : n ≤ rest.length := by
        simpa using hlen
      have hsend2 : ∀ x ∈ rest.take n, sendOk x = true := by
        intro x hx
        exact hsend x (by simp [List.take_succ_cons]; exact Or.inr hx)
      have := ih rest (k + 1) (d :: sent) hset2 hclear2 hlen2 hsend2
      simp [streamLoopGo, hk, hd, this, List.take_succ_cons]

/-- Claim C1 counterexample: a run of the streaming loop in which the
one-way shutdown flag is set right after the first head check and the
bus never yields another item stays parked in the blocking pull and
never exits, refuting that the loop observes shutdown within one polling
interval and that the blocking pull never blocks indefinitely past a
shutdown signal. -/
theorem streamLoop_shutdown_counterexample :
    ¬ shutdownResponsive lateFlag (fun _ => true) [] := by
  intro h
  rcases h ⟨1, by decide⟩ with ⟨sent, hs⟩
  have hb : streamLoop lateFlag (fun _ => true) []
      = LoopOutcome.blocked [] := by decide
  rw [hb] at hs
  exact LoopOutcome.noConfusion hs

/-- Claim C1 as amended: the loops of the events and video-mirror routes
poll the shutdown flag only at the loop head, between blocking pulls.
If the first head check that observes the flag set is check n, and the
bus delivers at least n items (each sent successfully), the loop exits
at that check having sent exactly those n items and sends nothing
further; in particular an item pulled during the interval in which
shutdown was signaled is still sent, and when no further item arrives
the loop stays parked in the blocking pull instead of exiting. -/
theorem streamLoop_exits_at_first_set_check (flag : Nat → Bool)
    (sendOk : String → Bool) (ds : List String) (n : Nat)
    (h1 : flag n = true) (h2 : ∀ m, m < n → flag m = false)
    (h3 : n ≤ ds.length) (h4 : ∀ d ∈ ds.take n, sendOk d = true) :
    streamLoop flag sendOk ds = LoopOutcome.exited (ds.take n) := by
  have := streamLoopGo_exits flag sendOk n ds 0 [] (by simpa using h1)
    (by simpa using h2) h3 h4
  simpa [streamLoop] using this

/-- Claim C1 amended witness: with shutdown signaled right after the
first head check and two items subsequently delivered, the loop sends
the first item (pulled while shutdown was already signaled) and exits at
the next head check. -/
theorem streamLoop_exits_witness :
    streamLoop lateFlag (fun _ => true) ["a", "b"]
      = LoopOutcome.exited (["a"]) :=
  streamLoop_exits_at_first_set_check lateFlag (fun _ => true)
    (["a", "b"]) 1 (by decide) (by decide) (by decide) (by decide)

/-- Claim C4 counterexample: starting from the empty mirror-bus slot,
the first subscription stores a fresh bus, but a second subscription
does not attach to that existing bus: it returns a different, newly
created bus and the slot no longer holds the first one, refuting that
subsequent subscriptions attach to the existing bus rather than creating
a new one. -/
theorem mirror_bus_attach_counterexample :
    (mirrorBusSubscribe mirrorBusInit).1.current
        = some (mirrorBusSubscribe mirrorBusInit).2 ∧
    (mirrorBusSubscribe (mirrorBusSubscribe mirrorBusInit).1).2
        ≠ (mirrorBusSubscribe mirrorBusInit).2 ∧
    (mirrorBusSubscribe (mirrorBusSubscribe mirrorBusInit).1).1.current
        ≠ some (mirrorBusSubscribe mirrorBusInit).2 := by
  decide

/-- Claim C4 as amended: the mirror-bus slot starts empty and the bus is
created lazily on the first subscription; the slot holds at most one bus
at a time, and every subscription (not only the first of a session)
replaces the slot content with a freshly created bus, to which the new
subscriber attaches: after n subscriptions the slot holds exactly the
bus created by the latest one, and the next subscription hands out a bus
distinct from it. -/
theorem mirror_bus_replaced_each_subscription (n : Nat) :
    (subscribeN n).nextGen = n ∧
    (subscribeN n).current = (if n = 0 then none else some (n - 1)) ∧
    (mirrorBusSubscribe (subscribeN n)).2 = n := by
  induction n with
  | zero => simp [subscribeN, mirrorBusInit, mirrorBusSubscribe]
  | succ n ih =>
    refine ⟨?_, ?_, ?_⟩
    · simp [subscribeN, mirrorBusSubscribe, ih.1]
    · simp [subscribeN, mirrorBusSubscribe, ih.1]
    · simp [subscribeN, mirrorBusSubscribe, ih.1]

-- Helper lemma for the mirror session (shared; not a claim theorem).

theorem runMirror_broadcasts (fs : List (List Nat)) (w : MirrorRun) :
    runMirror (fs.map MirrorAction.tryBroadcast) w
      = { w with busItems := w.busItems ++ fs } := by
  induction fs generalizing w with
  | nil => simp [runMirror]
  | cons f fs ih =>
    show runMirror (fs.map MirrorAction.tryBroadcast)
        (stepMirror w (MirrorAction.tryBroadcast f)) = _
    rw [ih]
    simp [stepMirror]

/-- Claim C5: for a new video-mirror subscription established while a
decoder config is known, the config buffer is the first item the new
subscriber receives, before every frame broadcast afterwards, and the
setup sequence requests exactly one fresh keyframe from the
collaborator, after the receiver is added and the config is replayed
(RequestIDR is the last setup action). -/
theorem mirror_config_first_then_idr (c : List Nat)
    (frames : List (List Nat)) (w0 : MirrorRun) :
    deliveredTo
        (runMirror
          (mirrorSubscribeActions (some c) ++
            frames.map MirrorAction.tryBroadcast) w0)
      = c :: frames ∧
    (runMirror
        (mirrorSubscribeActions (some c) ++
          frames.map MirrorAction.tryBroadcast) w0).idrCount
      = w0.idrCount + 1 ∧
    mirrorSubscribeActions (some c)
      = [MirrorAction.insertNewBus, MirrorAction.addRx,
         MirrorAction.tryBroadcast c, MirrorAction.requestIDR] := by
  have hsetup : runMirror (mirrorSubscribeActions (some c)) w0
      = { busItems := [c], rxStart := some 0, idrCount := w0.idrCount + 1 } := by
    simp [mirrorSubscribeActions, runMirror, stepMirror]
  have hsplit : runMirror
      (mirrorSubscribeActions (some c) ++ frames.map MirrorAction.tryBroadcast) w0
      = runMirror (frames.map MirrorAction.tryBroadcast)
          (runMirror (mirrorSubscribeActions (some c)) w0) := by
    simp [runMirror, List.foldl_append]
  rw [hsplit, hsetup, runMirror_broadcasts]
  refine ⟨?_, rfl, rfl⟩
  simp [deliveredTo]

end Alvr
